import Mathlib

/-!
Shallow embedding of the change-detection monitoring engine
(`examples/03_monitoring_alerts.py`): data model, diff engine,
status classification, persistence window, scheduler tick and report
generation, together with proofs of the specified properties.

Python floats are modelled as rationals; Python dicts keyed by URL are
modelled as association lists with Python dict insertion semantics
(update in place when the key exists, append otherwise); the JSON results
file is modelled as the list of records it holds.
-/

/-- One observed snapshot of a product page (`ProductMonitor` model:
`name`, `price`, `in_stock`, `last_checked`; all fields required). -/
structure ProductMonitor where
  name : String
  price : ℚ
  in_stock : Bool
  last_checked : String
deriving DecidableEq, Repr

/-- The `data` dict of a persisted result: the three canonical fields plus
`last_checked`, each possibly absent (`dict.get` returns `None` when the
key is missing), plus arbitrary extra keys that the diff never reads.
The empty dict (every field absent, no extras) models `data={}` of an
error record. -/
structure PrevData where
  price : Option ℚ
  in_stock : Option Bool
  name : Option String
  last_checked : Option String
  extra : List (String × String)
deriving DecidableEq, Repr

/-- One persisted record (`MonitoringResult` model). `data = none` models a dict
lacking the `data` key altogether (guarded against in `detect_changes`);
records produced by the monitor always carry `some` dict, `{}` on error. -/
structure MonitoringResult where
  timestamp : String
  url : String
  status : String
  data : Option PrevData
  changes : Option (List String)
  error_message : Option String
deriving DecidableEq, Repr

/-- The model dump of a `ProductMonitor`: every canonical field present. -/
def product_dump (p : ProductMonitor) : PrevData :=
  { price := some p.price
    in_stock := some p.in_stock
    name := some p.name
    last_checked := some p.last_checked
    extra := [] }

/-- The `data={}` dict of an error record: every key absent. -/
def emptyPrevData : PrevData :=
  { price := none, in_stock := none, name := none, last_checked := none, extra := [] }

/-- Python `abs` on a rational. -/
def ratAbs (q : ℚ) : ℚ := if q < 0 then -q else q

/-- Floor of a rational as an integer (`num / den` with integer
flooring division). -/
def ratFloor (q : ℚ) : ℤ := q.num / q.den

/-- Python `f"{x:.2f}"` on the exact rational values handled here:
sign, integer part, and the value rounded to hundredths with two digits
after the point. -/
def fmt2 (q : ℚ) : String :=
  let c : ℤ := ratFloor (ratAbs q * 100 + 1/2)
  let whole := c / 100
  let frac := c % 100
  let fracStr := if frac < 10 then "0" ++ toString frac else toString frac
  (if q < 0 then "-" else "") ++ toString whole ++ "." ++ fracStr

/-- The price-change description string (lines 144-150 of the source):
direction from the sign of `new - old`, absolute delta to two decimals. -/
def price_change_msg (old_price new_price : ℚ) : String :=
  let diff := new_price - old_price
  let direction := if diff > 0 then "increased" else "decreased"
  let o := fmt2 old_price
  let n := fmt2 new_price
  let d := fmt2 (ratAbs diff)
  "Price " ++ (direction ++ (" from $" ++ (o ++ (" to $" ++ (n ++ (" ($" ++ (d ++ ")")))))))

/-- The stock-change description string (lines 153-155 of the source). -/
def stock_change_msg (in_stock : Bool) : String :=
  let status := if in_stock then "IN STOCK" else "OUT OF STOCK"
  "Stock status changed to: " ++ status

/-- The name-change description string (lines 158-162 of the source);
an absent previous name prints as Python renders `None`. -/
def name_change_msg (old_name : Option String) (new_name : String) : String :=
  let o := match old_name with | some s => s | none => "None"
  "Product name changed from \x27" ++ (o ++ ("\x27 to \x27" ++ (new_name ++ "\x27")))

/-- The first-observation sentinel descriptor. -/
def sentinelMsg : String := "First time monitoring this product"

set_option linter.unusedVariables false in
/-- The diff engine `detect_changes`: sentinel when there is no previous
record or it lacks a `data` dict; otherwise one descriptor per canonical
field whose previous value (absent ≡ `None`) differs from the current one,
in the fixed order price, stock, name. The `url` argument is accepted and
ignored exactly as in the source. -/
def detect_changes (url : String) (current : ProductMonitor)
    (previous : Option MonitoringResult) : List String :=
  match previous with
  | none => [sentinelMsg]
  | some prev =>
    match prev.data with
    | none => [sentinelMsg]
    | some prev_data =>
      let c1 : List String :=
        if prev_data.price ≠ some current.price then
          [price_change_msg (prev_data.price.getD 0) current.price]
        else []
      let c2 : List String :=
        if prev_data.in_stock ≠ some current.in_stock then
          [stock_change_msg current.in_stock]
        else []
      let c3 : List String :=
        if prev_data.name ≠ some current.name then
          [name_change_msg prev_data.name current.name]
        else []
      c1 ++ c2 ++ c3

/-- The status expression of line 218: status is `changed` when the change
list is truthy and longer than one entry, else `success`. -/
def classify_status (chg : List String) : String :=
  if chg ≠ [] ∧ chg.length > 1 then "changed" else "success"

/-! ## Persistence: the results file, the previous-state window -/

/-- Python `l[-n:]`: the last `n` elements (all of them when `n ≥ |l|`). -/
def takeLast (n : Nat) (l : List α) : List α := l.drop (l.length - n)

/-- Python dict insertion `d[k] = v`: replace in place when the key is
present, append otherwise. -/
def dictInsert (d : List (String × MonitoringResult)) (k : String)
    (v : MonitoringResult) : List (String × MonitoringResult) :=
  if d.any (fun p => p.1 == k) then
    d.map (fun p => if p.1 == k then (k, v) else p)
  else d ++ [(k, v)]

/-- Python dict lookup `d.get(k)`. -/
def dictLookup (d : List (String × MonitoringResult)) (k : String) :
    Option MonitoringResult :=
  (d.find? (fun p => p.1 == k)).map (fun p => p.2)

/-- The dict comprehension of line 59: build a dict keyed by url, later
records overwriting earlier ones. -/
def dict_of_results (rs : List MonitoringResult) : List (String × MonitoringResult) :=
  rs.foldl (fun d r => dictInsert d r.url r) []

/-- State rebuild `load_previous_state` (lines 53-60): the last result for
each URL among the last 10 records of the file. -/
def load_previous_state (log : List MonitoringResult) :
    List (String × MonitoringResult) :=
  dict_of_results (takeLast 10 log)

/-- Persistence `save_result` (lines 62-72): read the whole file, append
one record, write it back. -/
def save_result (log : List MonitoringResult) (result : MonitoringResult) :
    List MonitoringResult :=
  log ++ [result]

/-- Reading the whole results file (lines 257-258). -/
def load_all (log : List MonitoringResult) : List MonitoringResult := log

/-! ## The scheduler tick -/

/-- The external collaborators of one run: the observation source
(`check_product_page`, returning `None` on any fetch/extraction failure)
and the wall clock used to stamp error records. -/
structure Oracle where
  fetch : String → Option ProductMonitor
  now : String

/-- In-memory state of a `WebsiteMonitor`: the persisted log, the
`previous_state` window, and the alerts sent so far (each a
`send_alert(changes, product, url)` call, recorded as url × changes). -/
structure MonitorState where
  log : List MonitoringResult
  previous_state : List (String × MonitoringResult)
  alerts : List (String × List String)
deriving DecidableEq, Repr

/-- The body of the `for url in urls` loop of `monitor_products`
(lines 198-248): fetch, diff, classify, persist, alert, update window;
on fetch failure append an error record and leave the window alone. -/
def process_url (oracle : Oracle) (st : MonitorState) (url : String) :
    MonitorState :=
  match oracle.fetch url with
  | some current =>
    let previous := dictLookup st.previous_state url
    let chg := detect_changes url current previous
    let result : MonitoringResult :=
      { timestamp := current.last_checked
        url := url
        status := classify_status chg
        data := some (product_dump current)
        changes := if chg ≠ [] then some chg else none
        error_message := none }
    { log := save_result st.log result
      previous_state := dictInsert st.previous_state url result
      alerts := if chg.length > 1 then st.alerts ++ [(url, chg)] else st.alerts }
  | none =>
    let result : MonitoringResult :=
      { timestamp := oracle.now
        url := url
        status := "error"
        data := some emptyPrevData
        changes := none
        error_message := some "Failed to extract product data" }
    { st with log := save_result st.log result }

/-- One tick of `monitor_products` over the url list. -/
def monitor_products (oracle : Oracle) (st : MonitorState) (urls : List String) :
    MonitorState :=
  urls.foldl (process_url oracle) st

/-- A fresh `WebsiteMonitor` over an existing results file: empty log is
the missing file, the window is rebuilt from the tail of the log. -/
def init_state (log : List MonitoringResult) : MonitorState :=
  { log := log, previous_state := load_previous_state log, alerts := [] }

/-! ## Report generation -/

/-- Truthiness of the changes entry of a record: present, non-null and
non-empty. -/
def has_changes (r : MonitoringResult) : Bool :=
  match r.changes with
  | some (_ :: _) => true
  | _ => false

/-- The total-checks line (line 264). -/
def total_line (n : Nat) : String := s!"Total checks: {n}"

/-- The products-monitored line (line 268). -/
def products_line (n : Nat) : String := s!"Products monitored: {n}"

/-- The successful-checks line (line 276). -/
def successes_line (n : Nat) : String := s!"  ✓ Successful checks: {n}"

/-- The changes-detected line (line 277). -/
def changed_line (n : Nat) : String := s!"  🔔 Changes detected: {n}"

/-- The errors line (line 278). -/
def errors_line (n : Nat) : String := s!"  ✗ Errors: {n}"

/-- The recent-changes header (line 283). -/
def recent_header (n : Nat) : String := s!"\nRecent changes ({n}):"

/-- The lines printed for one recent-change record (lines 285-288):
timestamp, URL, and its first 3 change descriptors. -/
def recent_entry (r : MonitoringResult) : List String :=
  ("\n  " ++ r.timestamp) :: ("  URL: " ++ r.url) ::
    ((r.changes.getD []).take 3).map (fun c => "    • " ++ c)

/-- The lines of `generate_report` (lines 260-290), in append order. -/
def report_lines (results : List MonitoringResult) : List String :=
  let sep := String.mk (List.replicate 60 '=')
  let recent_changes := (takeLast 20 results).filter has_changes
  let recentBlock : List String :=
    if recent_changes ≠ [] then
      recent_header recent_changes.length ::
        ((takeLast 5 recent_changes).map recent_entry).flatten
    else []
  [sep, "MONITORING REPORT", sep,
    total_line results.length,
    products_line ((results.map (fun r => r.url)).dedup).length,
    "\nStatus breakdown:",
    successes_line (results.countP (fun r => r.status == "success")),
    changed_line (results.countP (fun r => r.status == "changed")),
    errors_line (results.countP (fun r => r.status == "error"))]
  ++ recentBlock ++ ["\n" ++ sep]

/-- Report generation `generate_report` (lines 252-292): `none` models a
missing results file. -/
def generate_report (file : Option (List MonitoringResult)) : String :=
  match file with
  | none => "No monitoring data available"
  | some results => String.intercalate "\n" (report_lines (load_all results))

/-! ## Concrete runs used as test vectors -/

/-- A snapshot of product A at price 10. -/
def curA10 : ProductMonitor := { name := "X", price := 10, in_stock := true, last_checked := "t1" }

/-- A snapshot of product A at price 8. -/
def curA8 : ProductMonitor := { name := "X", price := 8, in_stock := true, last_checked := "t2" }

/-- A previously persisted success record for target A at price 10. -/
def prevA10 : MonitoringResult :=
  { timestamp := "t1", url := "A", status := "success"
    data := some (product_dump curA10)
    changes := some [sentinelMsg], error_message := none }

/-- An already-persisted error record (its `data` dict is `{}`). -/
def prevErr : MonitoringResult :=
  { timestamp := "e0", url := "A", status := "error"
    data := some emptyPrevData
    changes := none, error_message := some "Failed to extract product data" }

/-- Tick-1 oracle of the two-tick scenario: A fetches at price 10,
every other target (in particular B) fails. -/
def tick1Oracle : Oracle :=
  { fetch := fun u => if u == "A" then some curA10 else none, now := "e1" }

/-- Tick-2 oracle: A fetches at price 8. -/
def tick2Oracle : Oracle :=
  { fetch := fun u => if u == "A" then some curA8 else none, now := "e2" }

/-- The two-tick scenario log: tick 1 over `["A","B"]` from an empty
store, then tick 2 over `["A"]` continuing the same monitor. -/
def scenarioLog : List MonitoringResult :=
  (monitor_products tick2Oracle
    (monitor_products tick1Oracle (init_state []) ["A", "B"]) ["A"]).log

/-- An oracle every fetch of which fails. -/
def failOracle : Oracle := { fetch := fun _ => none, now := "e0" }

/-- A monitor state whose log and window both hold `prevA10` for A. -/
def stateA10 : MonitorState :=
  { log := [prevA10], previous_state := [("A", prevA10)], alerts := [] }

/-- A snapshot of A that differs from `prevA10` in price and stock. -/
def curTwoChanges : ProductMonitor :=
  { name := "X", price := 8, in_stock := false, last_checked := "t2" }

/-- An oracle fetching `curTwoChanges` for every target. -/
def twoChangeOracle : Oracle := { fetch := fun _ => some curTwoChanges, now := "e" }

/-- An oracle fetching `curA8` for every target. -/
def oneChangeOracle : Oracle := { fetch := fun _ => some curA8, now := "e" }

/-- An old record holding a change descriptor, deep in the log. -/
def oldChanged : MonitoringResult :=
  { timestamp := "t0", url := "A", status := "changed"
    data := some (product_dump curA10)
    changes := some ["old-change"], error_message := none }

/-- A quiet record with no changes. -/
def quietRec : MonitoringResult :=
  { timestamp := "tq", url := "A", status := "success"
    data := some (product_dump curA10)
    changes := none, error_message := none }

/-- A 21-record log whose only record with changes is the oldest. -/
def longLog : List MonitoringResult := oldChanged :: List.replicate 20 quietRec

/-- A persisted success record at price 29.99. -/
def prev2999 : MonitoringResult :=
  { timestamp := "t0", url := "A", status := "success"
    data := some { price := some (2999/100), in_stock := some true,
                   name := some "X", last_checked := some "t0", extra := [] }
    changes := some [sentinelMsg], error_message := none }

/-- A snapshot at price 24.99, otherwise identical to `prev2999`. -/
def cur2499 : ProductMonitor :=
  { name := "X", price := 2499/100, in_stock := true, last_checked := "t1" }

/-! ## Classifying descriptor strings

The three field descriptors and the sentinel are told apart by their first
six characters, which come from a string literal in every case. -/

/-- A price descriptor: starts with the literal prefix of
`price_change_msg`. -/
def isPriceDescriptor (s : String) : Bool := s.data.take 6 == "Price ".data

/-- A stock descriptor: starts with the literal prefix of
`stock_change_msg`. -/
def isStockDescriptor (s : String) : Bool := s.data.take 6 == "Stock ".data

/-- A name descriptor: starts with the literal prefix of
`name_change_msg`. -/
def isNameDescriptor (s : String) : Bool := s.data.take 6 == "Produc".data

lemma take_data_append (n : Nat) (a b : String) (h : n ≤ a.data.length) :
    (a ++ b).data.take n = a.data.take n := by
  rw [String.data_append, List.take_append_of_le_length h]

lemma isPriceDescriptor_price (o n : ℚ) :
    isPriceDescriptor (price_change_msg o n) = true := by
  simp only [price_change_msg, isPriceDescriptor]
  rw [take_data_append 6 _ _ (by decide)]
  decide

lemma isStockDescriptor_price (o n : ℚ) :
    isStockDescriptor (price_change_msg o n) = false := by
  simp only [price_change_msg, isStockDescriptor]
  rw [take_data_append 6 _ _ (by decide)]
  decide

lemma isNameDescriptor_price (o n : ℚ) :
    isNameDescriptor (price_change_msg o n) = false := by
  simp only [price_change_msg, isNameDescriptor]
  rw [take_data_append 6 _ _ (by decide)]
  decide

lemma isPriceDescriptor_stock (b : Bool) :
    isPriceDescriptor (stock_change_msg b) = false := by cases b <;> decide

lemma isStockDescriptor_stock (b : Bool) :
    isStockDescriptor (stock_change_msg b) = true := by cases b <;> decide

lemma isNameDescriptor_stock (b : Bool) :
    isNameDescriptor (stock_change_msg b) = false := by cases b <;> decide

lemma isPriceDescriptor_name (o : Option String) (n : String) :
    isPriceDescriptor (name_change_msg o n) = false := by
  simp only [name_change_msg, isPriceDescriptor]
  rw [take_data_append 6 _ _ (by decide)]
  decide

lemma isStockDescriptor_name (o : Option String) (n : String) :
    isStockDescriptor (name_change_msg o n) = false := by
  simp only [name_change_msg, isStockDescriptor]
  rw [take_data_append 6 _ _ (by decide)]
  decide

lemma isNameDescriptor_name (o : Option String) (n : String) :
    isNameDescriptor (name_change_msg o n) = true := by
  simp only [name_change_msg, isNameDescriptor]
  rw [take_data_append 6 _ _ (by decide)]
  decide

lemma price_msg_ne_sentinel (o n : ℚ) : price_change_msg o n ≠ sentinelMsg := by
  intro h
  have h1 := isPriceDescriptor_price o n
  rw [h] at h1
  exact absurd h1 (by decide)

lemma stock_msg_ne_sentinel (b : Bool) : stock_change_msg b ≠ sentinelMsg := by
  cases b <;> decide

lemma name_msg_ne_sentinel (o : Option String) (n : String) :
    name_change_msg o n ≠ sentinelMsg := by
  intro h
  have h1 := isNameDescriptor_name o n
  rw [h] at h1
  exact absurd h1 (by decide)

lemma sentinel_ne_price (o n : ℚ) : sentinelMsg ≠ price_change_msg o n :=
  fun h => price_msg_ne_sentinel o n h.symm

lemma sentinel_ne_stock (b : Bool) : sentinelMsg ≠ stock_change_msg b :=
  fun h => stock_msg_ne_sentinel b h.symm

lemma sentinel_ne_name (o : Option String) (n : String) :
    sentinelMsg ≠ name_change_msg o n :=
  fun h => name_msg_ne_sentinel o n h.symm

/-! ## Claims about the diff engine -/

/-- C2: with no prior recorded result (previous absent, or previous lacking
snapshot data), `detect_changes` returns exactly the sentinel descriptor
and the status expression classifies that singleton list as `success`. -/
theorem compare_first_observation (url : String) (cur : ProductMonitor)
    (previous : Option MonitoringResult)
    (h : previous = none ∨ ∃ r, previous = some r ∧ r.data = none) :
    detect_changes url cur previous = [sentinelMsg] ∧
      classify_status (detect_changes url cur previous) = "success" := by
  rcases h with h | ⟨r, hr, hd⟩
  · subst h
    exact ⟨rfl, rfl⟩
  · subst hr
    have hs : detect_changes url cur (some r) = [sentinelMsg] := by
      simp [detect_changes, hd]
    refine ⟨hs, ?_⟩
    rw [hs]
    decide

/-- Witness for C2 at a concrete input. -/
theorem compare_first_observation_witness :
    detect_changes "https://shop/widget" ⟨"X", 10, true, "t1"⟩ none = [sentinelMsg] ∧
      classify_status (detect_changes "https://shop/widget" ⟨"X", 10, true, "t1"⟩ none)
        = "success" :=
  compare_first_observation "https://shop/widget" ⟨"X", 10, true, "t1"⟩ none (Or.inl rfl)

/-- C9: appending results one at a time and reloading the log yields the
original contents followed by the new results in order. -/
theorem append_then_load_roundtrip (log rs : List MonitoringResult) :
    load_all (rs.foldl save_result log) = load_all log ++ rs := by
  induction rs generalizing log with
  | nil => simp [load_all]
  | cons r t ih =>
    rw [List.foldl_cons, ih]
    simp [load_all, save_result]

/-- C10: the diff result is either exactly the sentinel singleton or a
sentinel-free list of at most three descriptors, at most one per canonical
field. -/
theorem detect_changes_shape (url : String) (cur : ProductMonitor)
    (prev : Option MonitoringResult) :
    detect_changes url cur prev = [sentinelMsg] ∨
      (sentinelMsg ∉ detect_changes url cur prev ∧
        (detect_changes url cur prev).length ≤ 3 ∧
        (detect_changes url cur prev).countP isPriceDescriptor ≤ 1 ∧
        (detect_changes url cur prev).countP isStockDescriptor ≤ 1 ∧
        (detect_changes url cur prev).countP isNameDescriptor ≤ 1) := by
  match prev with
  | none => exact Or.inl rfl
  | some p =>
    match hd : p.data with
    | none =>
      left
      simp [detect_changes, hd]
    | some pd =>
      right
      simp only [detect_changes, hd]
      split_ifs <;>
        simp_all [List.countP_append, List.countP_cons, List.countP_nil,
          isPriceDescriptor_price, isStockDescriptor_price, isNameDescriptor_price,
          isPriceDescriptor_stock, isStockDescriptor_stock, isNameDescriptor_stock,
          isPriceDescriptor_name, isStockDescriptor_name, isNameDescriptor_name,
          sentinel_ne_price, sentinel_ne_stock, sentinel_ne_name]

lemma classify_status_of_one_lt (chg : List String) (h : 1 < chg.length) :
    classify_status chg = "changed" := by
  unfold classify_status
  rw [if_pos]
  exact ⟨fun e => by simp [e] at h, h⟩

lemma classify_status_of_length_one (chg : List String) (h : chg.length = 1) :
    classify_status chg = "success" := by
  unfold classify_status
  rw [if_neg]
  rintro ⟨-, h2⟩
  omega

lemma classify_status_ne_error (chg : List String) :
    classify_status chg ≠ "error" := by
  unfold classify_status
  split <;> decide

/-- C1 counterexample: a diff of exactly one non-sentinel descriptor (A
drops from price 10 to 8, nothing else differs) is classified `success`,
not `changed`, and no alert is sent for it. -/
theorem single_change_counterexample :
    detect_changes "A" curA8 (some prevA10) = [price_change_msg 10 8] ∧
    price_change_msg 10 8 ≠ sentinelMsg ∧
    classify_status (detect_changes "A" curA8 (some prevA10)) = "success" ∧
    (process_url oneChangeOracle stateA10 "A").alerts = [] := by
  refine ⟨?_, price_msg_ne_sentinel 10 8, ?_, ?_⟩ <;> with_unfolding_all rfl

/-- C1 amended: within one tick, a target whose diff has more than one
entry is recorded as `changed` and alerted exactly once; a diff with
exactly one entry — sentinel or not — is recorded as `success` and not
alerted. -/
theorem process_url_alerting (o : Oracle) (st : MonitorState) (url : String)
    (cur : ProductMonitor) (chg : List String)
    (hf : o.fetch url = some cur)
    (hchg : detect_changes url cur (dictLookup st.previous_state url) = chg) :
    ∃ res, (process_url o st url).log = st.log ++ [res] ∧
      res.status = classify_status chg ∧
      (1 < chg.length →
        res.status = "changed" ∧
        (process_url o st url).alerts = st.alerts ++ [(url, chg)]) ∧
      (chg.length = 1 →
        res.status = "success" ∧
        (process_url o st url).alerts = st.alerts) := by
  simp only [process_url, hf, hchg, save_result]
  refine ⟨_, rfl, rfl, fun h1 => ⟨classify_status_of_one_lt chg h1, ?_⟩,
    fun h1 => ⟨classify_status_of_length_one chg h1, ?_⟩⟩
  · rw [if_pos h1]
  · rw [if_neg (by omega)]

/-- Witness for C1 amended: a two-descriptor diff (price and stock both
change) yields status `changed` and one alert; the one-descriptor diff of
the counterexample state yields `success` and no alert. -/
theorem process_url_alerting_witness :
    (∃ res, (process_url twoChangeOracle stateA10 "A").log = stateA10.log ++ [res] ∧
      res.status = classify_status [price_change_msg 10 8, stock_change_msg false] ∧
      (1 < ([price_change_msg 10 8, stock_change_msg false] : List String).length →
        res.status = "changed" ∧
        (process_url twoChangeOracle stateA10 "A").alerts =
          stateA10.alerts ++ [("A", [price_change_msg 10 8, stock_change_msg false])]) ∧
      (([price_change_msg 10 8, stock_change_msg false] : List String).length = 1 →
        res.status = "success" ∧
        (process_url twoChangeOracle stateA10 "A").alerts = stateA10.alerts)) ∧
    (∃ res, (process_url oneChangeOracle stateA10 "A").log = stateA10.log ++ [res] ∧
      res.status = classify_status [price_change_msg 10 8] ∧
      (1 < ([price_change_msg 10 8] : List String).length →
        res.status = "changed" ∧
        (process_url oneChangeOracle stateA10 "A").alerts =
          stateA10.alerts ++ [("A", [price_change_msg 10 8])]) ∧
      (([price_change_msg 10 8] : List String).length = 1 →
        res.status = "success" ∧
        (process_url oneChangeOracle stateA10 "A").alerts = stateA10.alerts)) :=
  ⟨process_url_alerting twoChangeOracle stateA10 "A" curTwoChanges
      [price_change_msg 10 8, stock_change_msg false] rfl (by with_unfolding_all rfl),
    process_url_alerting oneChangeOracle stateA10 "A" curA8
      [price_change_msg 10 8] rfl (by with_unfolding_all rfl)⟩

/-- C5 counterexample: against a previous record whose `data` dict is
empty (every canonical field absent), the diff emits a descriptor for all
three canonical fields instead of none, and the result is even classified
`changed`. -/
theorem compare_absent_fields_counterexample :
    detect_changes "A" curA10 (some prevErr) =
      ["Price increased from $0.00 to $10.00 ($10.00)",
        "Stock status changed to: IN STOCK",
        "Product name changed from \x27None\x27 to \x27X\x27"] ∧
    detect_changes "A" curA10 (some prevErr) ≠ [] ∧
    classify_status (detect_changes "A" curA10 (some prevErr)) = "changed" := by
  refine ⟨?_, ?_, ?_⟩
  · with_unfolding_all rfl
  · with_unfolding_all decide
  · with_unfolding_all rfl

/-- C5 amended: only the three canonical fields are diffed — snapshots
whose previous data carries all three with equal values diff to the empty
list and classify `success` whatever the other fields hold; but a
canonical field absent from the previous data counts as differing and
produces the descriptor of that field. -/
theorem compare_only_canonical_fields (url : String) (cur : ProductMonitor)
    (prev : MonitoringResult) (pd : PrevData) (hd : prev.data = some pd) :
    (pd.price = some cur.price → pd.in_stock = some cur.in_stock →
      pd.name = some cur.name →
      detect_changes url cur (some prev) = [] ∧
        classify_status (detect_changes url cur (some prev)) = "success") ∧
    (pd.price = none →
      (detect_changes url cur (some prev)).countP isPriceDescriptor = 1) ∧
    (pd.in_stock = none →
      (detect_changes url cur (some prev)).countP isStockDescriptor = 1) ∧
    (pd.name = none →
      (detect_changes url cur (some prev)).countP isNameDescriptor = 1) := by
  refine ⟨fun h1 h2 h3 => ?_, fun h1 => ?_, fun h1 => ?_, fun h1 => ?_⟩
  · have he : detect_changes url cur (some prev) = [] := by
      simp [detect_changes, hd, h1, h2, h3]
    exact ⟨he, by rw [he]; decide⟩
  · simp only [detect_changes, hd, h1]
    split_ifs <;>
      simp_all [List.countP_append, List.countP_cons,
        isPriceDescriptor_price, isPriceDescriptor_stock, isPriceDescriptor_name]
  · simp only [detect_changes, hd, h1]
    split_ifs <;>
      simp_all [List.countP_append, List.countP_cons,
        isStockDescriptor_price, isStockDescriptor_stock, isStockDescriptor_name]
  · simp only [detect_changes, hd, h1]
    split_ifs <;>
      simp_all [List.countP_append, List.countP_cons,
        isNameDescriptor_price, isNameDescriptor_stock, isNameDescriptor_name]

/-- Witness for C5 amended: equal canonical fields diff to `[]` and
classify `success`; the all-absent `data={}` record produces one
descriptor of each kind. -/
theorem compare_only_canonical_fields_witness :
    (detect_changes "A" curA10 (some prevA10) = [] ∧
      classify_status (detect_changes "A" curA10 (some prevA10)) = "success") ∧
    (detect_changes "A" curA10 (some prevErr)).countP isPriceDescriptor = 1 ∧
    (detect_changes "A" curA10 (some prevErr)).countP isStockDescriptor = 1 ∧
    (detect_changes "A" curA10 (some prevErr)).countP isNameDescriptor = 1 :=
  ⟨(compare_only_canonical_fields "A" curA10 prevA10 (product_dump curA10) rfl).1
      rfl rfl rfl,
    (compare_only_canonical_fields "A" curA10 prevErr emptyPrevData rfl).2.1 rfl,
    (compare_only_canonical_fields "A" curA10 prevErr emptyPrevData rfl).2.2.1 rfl,
    (compare_only_canonical_fields "A" curA10 prevErr emptyPrevData rfl).2.2.2 rfl⟩

lemma price_change_msg_direction (p q : ℚ) :
    price_change_msg p q =
      "Price " ++ ((if p < q then "increased" else "decreased") ++
        (" from $" ++ (fmt2 p ++ (" to $" ++ (fmt2 q ++
          (" ($" ++ (fmt2 (ratAbs (q - p)) ++ ")"))))))) := by
  simp only [price_change_msg, gt_iff_lt, sub_pos]

/-- C7: when the previous data holds a price differing from the current
one, the diff starts with exactly one price descriptor, whose direction is
`increased` precisely when the price rose, and whose old, new and absolute
delta amounts are rendered by the two-decimal formatter. -/
theorem compare_price_descriptor (url : String) (cur : ProductMonitor)
    (prev : MonitoringResult) (pd : PrevData) (p : ℚ)
    (hd : prev.data = some pd) (hp : pd.price = some p) (hne : p ≠ cur.price) :
    (detect_changes url cur (some prev)).head? = some (price_change_msg p cur.price) ∧
    (detect_changes url cur (some prev)).countP isPriceDescriptor = 1 ∧
    price_change_msg p cur.price =
      "Price " ++ ((if p < cur.price then "increased" else "decreased") ++
        (" from $" ++ (fmt2 p ++ (" to $" ++ (fmt2 cur.price ++
          (" ($" ++ (fmt2 (ratAbs (cur.price - p)) ++ ")"))))))) := by
  have hcond : (some p : Option ℚ) ≠ some cur.price :=
    fun h => hne (Option.some.inj h)
  have hsplit : detect_changes url cur (some prev) =
      [price_change_msg p cur.price] ++
        ((if pd.in_stock ≠ some cur.in_stock then [stock_change_msg cur.in_stock]
            else []) ++
          (if pd.name ≠ some cur.name then [name_change_msg pd.name cur.name]
            else [])) := by
    simp only [detect_changes, hd, hp]
    rw [if_pos hcond]
    simp [List.append_assoc]
  refine ⟨?_, ?_, price_change_msg_direction p cur.price⟩
  · rw [hsplit]
    rfl
  · rw [hsplit]
    split_ifs <;>
      simp [List.countP_append, List.countP_cons,
        isPriceDescriptor_price, isPriceDescriptor_stock, isPriceDescriptor_name]

/-- Witness for C7: the 29.99 → 24.99 change yields the single price
descriptor describing a decrease of 5.00. -/
theorem compare_price_descriptor_witness :
    (detect_changes "A" cur2499 (some prev2999)).head?
        = some (price_change_msg (2999/100) (2499/100)) ∧
    (detect_changes "A" cur2499 (some prev2999)).countP isPriceDescriptor = 1 ∧
    price_change_msg (2999/100) (2499/100)
        = "Price decreased from $29.99 to $24.99 ($5.00)" :=
  have h := compare_price_descriptor "A" cur2499 prev2999
    { price := some (2999/100), in_stock := some true, name := some "X",
      last_checked := some "t0", extra := [] } (2999/100) rfl rfl
    (by norm_num [cur2499])
  ⟨h.1, h.2.1, by with_unfolding_all rfl⟩

/-- C6: in one tick every target of the batch yields exactly one appended
record, in batch order; a failed fetch is recorded as an `error` result
with the error message set, and a successful fetch is recorded with a
non-`error` status and no error message — so one failure never suppresses
the processing of the remaining targets. -/
theorem tick_isolates_failures (o : Oracle) (st : MonitorState)
    (urls : List String) :
    ∃ new, (monitor_products o st urls).log = st.log ++ new ∧
      List.Forall₂ (fun u r =>
        r.url = u ∧
        (o.fetch u = none → r.status = "error" ∧
          r.error_message = some "Failed to extract product data") ∧
        (o.fetch u ≠ none → r.status ≠ "error" ∧ r.error_message = none))
        urls new := by
  induction urls generalizing st with
  | nil => exact ⟨[], by simp [monitor_products], List.Forall₂.nil⟩
  | cons u t ih =>
    obtain ⟨r0, hlog0, hp0⟩ :
        ∃ r0, (process_url o st u).log = st.log ++ [r0] ∧
          (r0.url = u ∧
            (o.fetch u = none → r0.status = "error" ∧
              r0.error_message = some "Failed to extract product data") ∧
            (o.fetch u ≠ none → r0.status ≠ "error" ∧
              r0.error_message = none)) := by
      cases hf : o.fetch u with
      | none =>
        refine ⟨⟨o.now, u, "error", some emptyPrevData, none,
            some "Failed to extract product data"⟩,
          ?_, rfl, fun _ => ⟨rfl, rfl⟩, fun hnf => absurd rfl hnf⟩
        simp [process_url, hf, save_result]
      | some cur =>
        refine ⟨⟨cur.last_checked, u,
            classify_status (detect_changes u cur (dictLookup st.previous_state u)),
            some (product_dump cur),
            if detect_changes u cur (dictLookup st.previous_state u) ≠ [] then
              some (detect_changes u cur (dictLookup st.previous_state u))
            else none,
            none⟩,
          ?_, rfl, fun hn => by simp at hn,
          fun _ => ⟨classify_status_ne_error _, rfl⟩⟩
        simp [process_url, hf, save_result]
    obtain ⟨new', hlog', hF⟩ := ih (process_url o st u)
    have hstep : monitor_products o st (u :: t)
        = monitor_products o (process_url o st u) t := rfl
    refine ⟨r0 :: new', ?_, List.Forall₂.cons hp0 hF⟩
    rw [hstep, hlog', hlog0]
    simp

/-- Witness for C6 at a concrete batch: one failing and one succeeding
target in the first tick of the two-tick scenario. -/
theorem tick_isolates_failures_witness :
    ∃ new, (monitor_products tick1Oracle (init_state []) ["A", "B"]).log
        = (init_state []).log ++ new ∧
      List.Forall₂ (fun u r =>
        r.url = u ∧
        (tick1Oracle.fetch u = none → r.status = "error" ∧
          r.error_message = some "Failed to extract product data") ∧
        (tick1Oracle.fetch u ≠ none → r.status ≠ "error" ∧
          r.error_message = none))
        ["A", "B"] new :=
  tick_isolates_failures tick1Oracle (init_state []) ["A", "B"]

/-! ## Dictionary lemmas -/

lemma find?_map_subst_self (k : String) (v : MonitoringResult)
    (d : List (String × MonitoringResult))
    (h : d.any (fun p => p.1 == k) = true) :
    (d.map (fun p => if p.1 == k then (k, v) else p)).find?
      (fun p => p.1 == k) = some (k, v) := by
  induction d with
  | nil => simp at h
  | cons p t ih =>
    by_cases hp : (p.1 == k) = true
    · have hpk : p.1 = k := by simpa using hp
      simp [List.find?_cons, hpk, -List.find?_map]
    · have hpb : (p.1 == k) = false := by simpa using hp
      have ht : t.any (fun p => p.1 == k) = true := by
        simp only [List.any_cons, hpb, Bool.false_or] at h
        exact h
      rw [List.map_cons, if_neg hp, List.find?_cons, hpb]
      exact ih ht

lemma find?_map_subst_other (k u : String) (v : MonitoringResult)
    (d : List (String × MonitoringResult)) (hu : u ≠ k) :
    (d.map (fun p => if p.1 == k then (k, v) else p)).find? (fun p => p.1 == u)
      = d.find? (fun p => p.1 == u) := by
  induction d with
  | nil => rfl
  | cons p t ih =>
    have h1b : ((k : String) == u) = false := by
      simp
      exact fun e => hu e.symm
    by_cases hp : (p.1 == k) = true
    · have hpk : p.1 = k := by simpa using hp
      have h2b : (p.1 == u) = false := by rw [hpk]; exact h1b
      have hs : ((((k : String), v) : String × MonitoringResult).1 == u) = false := h1b
      rw [List.map_cons, if_pos hp, List.find?_cons, hs,
        List.find?_cons, h2b]
      exact ih
    · cases hq : (p.1 == u) with
      | true =>
        rw [List.map_cons, if_neg hp, List.find?_cons, hq, List.find?_cons, hq]
      | false =>
        rw [List.map_cons, if_neg hp, List.find?_cons, hq, List.find?_cons, hq]
        exact ih

lemma find?_append_single (k u : String) (v : MonitoringResult)
    (d : List (String × MonitoringResult))
    (h : d.any (fun p => p.1 == k) = false) :
    (d ++ [(k, v)]).find? (fun p => p.1 == u) =
      if u = k then some (k, v) else d.find? (fun p => p.1 == u) := by
  induction d with
  | nil =>
    by_cases huk : u = k
    · simp [List.find?_cons, huk]
    · have h1b : ((k : String) == u) = false := by
        simp
        exact fun e => huk e.symm
      simp [List.find?_cons, h1b, huk]
  | cons p t ih =>
    simp only [List.any_cons, Bool.or_eq_false_iff] at h
    obtain ⟨hp, ht⟩ := h
    cases hq : (p.1 == u) with
    | true =>
      have hpu : p.1 = u := by simpa using hq
      have huk : ¬ u = k := by
        intro e
        rw [e] at hpu
        rw [hpu] at hp
        simp at hp
      rw [List.cons_append, List.find?_cons, hq, if_neg huk, List.find?_cons, hq]
    | false =>
      rw [List.cons_append, List.find?_cons, hq]
      by_cases huk : u = k
      · rw [if_pos huk]
        have := ih ht
        rw [if_pos huk] at this
        exact this
      · rw [if_neg huk, List.find?_cons, hq]
        have := ih ht
        rw [if_neg huk] at this
        exact this

lemma dictLookup_dictInsert (d : List (String × MonitoringResult))
    (k : String) (v : MonitoringResult) (u : String) :
    dictLookup (dictInsert d k v) u =
      if u = k then some v else dictLookup d u := by
  unfold dictLookup dictInsert
  by_cases h : d.any (fun p => p.1 == k) = true
  · rw [if_pos h]
    by_cases huk : u = k
    · subst huk
      rw [find?_map_subst_self u v d h]
      simp
  
    · rw [find?_map_subst_other k u v d huk, if_neg huk]
  · have h0 : d.any (fun p => p.1 == k) = false := by
      rwa [Bool.not_eq_true] at h
    rw [if_neg h]
    rw [find?_append_single k u v d h0]
    by_cases huk : u = k <;> simp [huk]

lemma window_inv_process (o : Oracle) (st : MonitorState) (url : String)
    (h : ∀ u r, dictLookup st.previous_state u = some r →
      (st.log.filter (fun x => x.url == u && x.status != "error")).getLast?
        = some r) :
    ∀ u r, dictLookup (process_url o st url).previous_state u = some r →
      ((process_url o st url).log.filter
        (fun x => x.url == u && x.status != "error")).getLast? = some r := by
  intro u r hl
  cases hf : o.fetch url with
  | some cur =>
    simp only [process_url, hf, save_result] at hl ⊢
    rw [dictLookup_dictInsert] at hl
    by_cases huk : u = url
    · subst huk
      rw [if_pos rfl] at hl
      injection hl with hl
      subst hl
      have hcls := classify_status_ne_error
        (detect_changes u cur (dictLookup st.previous_state u))
      rw [List.filter_append]
      simp [List.filter_cons, hcls, List.getLast?_concat]
    · rw [if_neg huk] at hl
      have hbase := h u r hl
      have hne2 : (url == u) = false := by
        simp
        exact fun e => huk e.symm
      rw [List.filter_append]
      simpa [List.filter_cons, hne2] using hbase
  | none =>
    simp only [process_url, hf, save_result] at hl ⊢
    have hbase := h u r hl
    rw [List.filter_append]
    simpa [List.filter_cons] using hbase

lemma window_inv_monitor (o : Oracle) (urls : List String) (st : MonitorState)
    (h : ∀ u r, dictLookup st.previous_state u = some r →
      (st.log.filter (fun x => x.url == u && x.status != "error")).getLast?
        = some r) :
    ∀ u r, dictLookup (monitor_products o st urls).previous_state u = some r →
      ((monitor_products o st urls).log.filter
        (fun x => x.url == u && x.status != "error")).getLast? = some r := by
  induction urls generalizing st with
  | nil => exact h
  | cons v t ih => exact ih (process_url o st v) (window_inv_process o st v h)

/-- C3 counterexample: a tick whose fetch fails appends an error record to
the log but leaves the window untouched — afterwards the window entry for
A is the stale success record, not the chronologically latest persisted
result (the error record) of the retained window. -/
theorem window_stale_on_error_counterexample :
    (process_url failOracle stateA10 "A").log = [prevA10, prevErr] ∧
    dictLookup (process_url failOracle stateA10 "A").previous_state "A"
      = some prevA10 ∧
    ((takeLast 10 (process_url failOracle stateA10 "A").log).filter
      (fun x => x.url == "A")).getLast? = some prevErr ∧
    prevA10 ≠ prevErr := by
  refine ⟨?_, ?_, ?_, ?_⟩
  · with_unfolding_all rfl
  · with_unfolding_all rfl
  · with_unfolding_all rfl
  · with_unfolding_all decide

/-- C3 amended: starting from an empty store, after processing any
sequence of targets every window entry is the chronologically latest
*non-error* record persisted for that target; the window is updated on
success/changed appends, while error appends leave it unchanged. -/
theorem window_tracks_latest_nonerror (o : Oracle) (urls : List String)
    (u : String) (r : MonitoringResult)
    (hl : dictLookup (monitor_products o (init_state []) urls).previous_state u
      = some r) :
    ((monitor_products o (init_state []) urls).log.filter
      (fun x => x.url == u && x.status != "error")).getLast? = some r := by
  refine window_inv_monitor o urls (init_state []) ?_ u r hl
  intro u0 r0 hl0
  simp [init_state, load_previous_state, takeLast, dict_of_results,
    dictLookup, List.find?] at hl0

/-- Witness for C3 amended: after the first scenario tick the window
entry for A is the success record just appended, which is the latest
non-error record for A in the log. -/
theorem window_tracks_latest_nonerror_witness :
    ((monitor_products tick1Oracle (init_state []) ["A", "B"]).log.filter
      (fun x => x.url == "A" && x.status != "error")).getLast?
      = some { timestamp := "t1", url := "A", status := "success",
               data := some (product_dump curA10),
               changes := some [sentinelMsg], error_message := none } :=
  window_tracks_latest_nonerror tick1Oracle ["A", "B"] "A"
    { timestamp := "t1", url := "A", status := "success",
      data := some (product_dump curA10),
      changes := some [sentinelMsg], error_message := none }
    (by with_unfolding_all rfl)

lemma getLast?_cons_of_ne_nil (a : MonitoringResult) (l : List MonitoringResult)
    (h : l ≠ []) : (a :: l).getLast? = l.getLast? := by
  cases l with
  | nil => exact absurd rfl h
  | cons b t => exact List.getLast?_cons_cons

lemma dictLookup_fold (rs : List MonitoringResult)
    (d : List (String × MonitoringResult)) (u : String) :
    dictLookup (rs.foldl (fun d r => dictInsert d r.url r) d) u =
      match (rs.filter (fun r => r.url == u)).getLast? with
      | some r => some r
      | none => dictLookup d u := by
  induction rs generalizing d with
  | nil => rfl
  | cons r t ih =>
    rw [List.foldl_cons, ih (dictInsert d r.url r)]
    cases hru : (r.url == u) with
    | true =>
      have hru2 : r.url = u := by simpa using hru
      rw [List.filter_cons, if_pos hru]
      cases hft : (t.filter (fun r => r.url == u)).getLast? with
      | some x =>
        have hne : t.filter (fun r => r.url == u) ≠ [] := by
          intro e
          rw [e] at hft
          simp at hft
        rw [getLast?_cons_of_ne_nil r _ hne, hft]
      | none =>
        have hfe : t.filter (fun r => r.url == u) = [] := by
          rwa [List.getLast?_eq_none_iff] at hft
        rw [hfe]
        show dictLookup (dictInsert d r.url r) u = some r
        rw [dictLookup_dictInsert, if_pos hru2.symm]
    | false =>
      have hneg : ¬ ((r.url == u) = true) := by simp [hru]
      rw [List.filter_cons, if_neg hneg]
      cases hft : (t.filter (fun r => r.url == u)).getLast? with
      | some x => rfl
      | none =>
        show dictLookup (dictInsert d r.url r) u = dictLookup d u
        have hne : ¬ u = r.url := by
          intro e
          rw [e] at hru
          simp at hru
        rw [dictLookup_dictInsert, if_neg hne]

lemma dictInsert_length_le (d : List (String × MonitoringResult))
    (k : String) (v : MonitoringResult) :
    (dictInsert d k v).length ≤ d.length + 1 := by
  unfold dictInsert
  split
  · rw [List.length_map]
    omega
  · rw [List.length_append]
    simp

lemma fold_dict_length (rs : List MonitoringResult)
    (d : List (String × MonitoringResult)) :
    (rs.foldl (fun d r => dictInsert d r.url r) d).length
      ≤ d.length + rs.length := by
  induction rs generalizing d with
  | nil => simp
  | cons r t ih =>
    rw [List.foldl_cons]
    have h1 := ih (dictInsert d r.url r)
    have h2 := dictInsert_length_le d r.url r
    simp only [List.length_cons]
    omega

lemma takeLast_length_le (n : Nat) (l : List α) : (takeLast n l).length ≤ n := by
  unfold takeLast
  rw [List.length_drop]
  omega

lemma dictInsert_keys (d : List (String × MonitoringResult))
    (k : String) (v : MonitoringResult) :
    (dictInsert d k v).map (fun p => p.1) =
      if d.any (fun p => p.1 == k) then d.map (fun p => p.1)
      else d.map (fun p => p.1) ++ [k] := by
  unfold dictInsert
  split
  · rename_i h
    rw [List.map_map]
    apply List.map_congr_left
    intro p hp
    by_cases hpk : (p.1 == k) = true
    · have hpe : p.1 = k := by simpa using hpk
      simp [Function.comp, hpk, hpe]
    · simp [Function.comp, hpk]
  · rename_i h
    simp

lemma fold_keys_nodup (rs : List MonitoringResult)
    (d : List (String × MonitoringResult))
    (hd : (d.map (fun p => p.1)).Nodup) :
    (((rs.foldl (fun d r => dictInsert d r.url r) d)).map (fun p => p.1)).Nodup := by
  induction rs generalizing d with
  | nil => exact hd
  | cons r t ih =>
    rw [List.foldl_cons]
    apply ih
    rw [dictInsert_keys]
    split
    · exact hd
    · rename_i h
      have h0 : d.any (fun p => p.1 == r.url) = false := by
        rwa [Bool.not_eq_true] at h
      have hnotin : r.url ∉ d.map (fun p => p.1) := by
        intro hmem
        obtain ⟨p, hp, he⟩ := List.mem_map.mp hmem
        have hall := List.any_eq_false.mp h0 p hp
        exact hall (by simp [he])
      simp [List.nodup_append, hd, hnotin]

lemma fold_keys_subset (rs : List MonitoringResult) :
    ∀ (d : List (String × MonitoringResult)) (x : String),
      x ∈ ((rs.foldl (fun d r => dictInsert d r.url r) d)).map (fun p => p.1) →
        x ∈ d.map (fun p => p.1) ∨ x ∈ rs.map (fun r => r.url) := by
  induction rs with
  | nil =>
    intro d x hx
    exact Or.inl hx
  | cons r t ih =>
    intro d x hx
    rw [List.foldl_cons] at hx
    rcases ih (dictInsert d r.url r) x hx with h | h
    · rw [dictInsert_keys] at h
      by_cases hc : d.any (fun p => p.1 == r.url) = true
      · rw [if_pos hc] at h
        exact Or.inl h
      · rw [if_neg hc] at h
        rcases List.mem_append.mp h with h1 | h1
        · exact Or.inl h1
        · right
          simp at h1
          simp [h1]
    · right
      rw [List.map_cons]
      exact List.mem_cons_of_mem _ h

lemma nodup_subset_length_le {l1 l2 : List String} (h1 : l1.Nodup)
    (hsub : ∀ x ∈ l1, x ∈ l2) : l1.length ≤ l2.dedup.length := by
  have e1 : l1.toFinset.card = l1.length := List.toFinset_card_of_nodup h1
  have hsub2 : l1.toFinset ⊆ l2.toFinset := by
    intro a ha
    rw [List.mem_toFinset] at ha ⊢
    exact hsub a ha
  have e2 : l2.toFinset.card = l2.dedup.length := List.card_toFinset l2
  rw [← e1, ← e2]
  exact Finset.card_le_card hsub2

/-- C8: the rebuilt window is keyed by at most `min(10, number of distinct
targets ever seen)` targets — it is built from only the last 10 records —
and each entry is the chronologically latest record for its target among
that retained tail. -/
theorem load_recent_by_target (log : List MonitoringResult) :
    (load_previous_state log).length ≤ 10 ∧
    (load_previous_state log).length
      ≤ ((log.map (fun r => r.url)).dedup).length ∧
    ∀ u r, dictLookup (load_previous_state log) u = some r →
      r ∈ takeLast 10 log ∧
      ((takeLast 10 log).filter (fun x => x.url == u)).getLast? = some r := by
  refine ⟨?_, ?_, ?_⟩
  · unfold load_previous_state dict_of_results
    have h1 := fold_dict_length (takeLast 10 log) []
    have h2 := takeLast_length_le 10 log
    simp only [List.length_nil, Nat.zero_add] at h1
    omega
  · unfold load_previous_state
    have hn : ((dict_of_results (takeLast 10 log)).map (fun p => p.1)).Nodup :=
      fold_keys_nodup _ [] (by simp)
    have hs : ∀ x ∈ (dict_of_results (takeLast 10 log)).map (fun p => p.1),
        x ∈ log.map (fun r => r.url) := by
      intro x hx
      rcases fold_keys_subset (takeLast 10 log) [] x hx with h | h
      · simp at h
      · obtain ⟨r, hr, he⟩ := List.mem_map.mp h
        exact List.mem_map.mpr ⟨r, List.drop_subset _ _ hr, he⟩
    have hle := nodup_subset_length_le hn hs
    rwa [List.length_map] at hle
  · intro u r hl
    unfold load_previous_state dict_of_results at hl
    rw [dictLookup_fold] at hl
    cases hft : ((takeLast 10 log).filter (fun x => x.url == u)).getLast? with
    | none =>
      rw [hft] at hl
      simp [dictLookup] at hl
    | some x =>
      rw [hft] at hl
      simp only at hl
      injection hl with hl
      subst hl
      refine ⟨?_, rfl⟩
      have hmem := List.mem_of_getLast?_eq_some hft
      exact (List.mem_filter.mp hmem).1

/-- Witness for C8: a 22-record log; the window entry for A is the
latest record for A inside the 10-record tail. -/
theorem load_recent_by_target_witness :
    (load_previous_state (longLog ++ [prevA10])).length ≤ 10 ∧
    (load_previous_state (longLog ++ [prevA10])).length
      ≤ (((longLog ++ [prevA10]).map (fun r => r.url)).dedup).length ∧
    (prevA10 ∈ takeLast 10 (longLog ++ [prevA10]) ∧
      ((takeLast 10 (longLog ++ [prevA10])).filter
        (fun x => x.url == "A")).getLast? = some prevA10) :=
  ⟨(load_recent_by_target (longLog ++ [prevA10])).1,
    (load_recent_by_target (longLog ++ [prevA10])).2.1,
    (load_recent_by_target (longLog ++ [prevA10])).2.2 "A" prevA10
      (by with_unfolding_all rfl)⟩

/-- C4 counterexample: in the two-tick scenario the pipeline classifies
tick 2 as `success` (single descriptor), so the report shows
changed=0/successes=2, not changed=1/successes=1; and a record with
changes that sits more than 20 records back is not shown in the recent
section at all. -/
theorem report_scope_counterexample :
    scenarioLog.length = 3 ∧
    scenarioLog.countP (fun r => r.status == "changed") = 0 ∧
    scenarioLog.countP (fun r => r.status == "success") = 2 ∧
    changed_line 1 ∉ report_lines scenarioLog ∧
    successes_line 1 ∉ report_lines scenarioLog ∧
    has_changes oldChanged = true ∧
    oldChanged ∈ longLog ∧
    (takeLast 20 longLog).filter has_changes = [] ∧
    longLog.filter has_changes = [oldChanged] ∧
    ("    • old-change") ∉ report_lines longLog := by
  refine ⟨?_, ?_, ?_, ?_, ?_, ?_, ?_, ?_, ?_, ?_⟩ <;> with_unfolding_all decide

/-- C4 amended: the report contains the total count, the distinct target
count and the per-status counts; its recent section shows exactly the last
5 among the *last 20* records that carry a nonempty change list, each
truncated to its first 3 descriptors; on the two-tick scenario it reports
total=3, targets=2, successes=2, changed=0, errors=1. -/
theorem generate_report_contents (results : List MonitoringResult) :
    total_line results.length ∈ report_lines results ∧
    products_line ((results.map (fun r => r.url)).dedup).length
      ∈ report_lines results ∧
    successes_line (results.countP (fun r => r.status == "success"))
      ∈ report_lines results ∧
    changed_line (results.countP (fun r => r.status == "changed"))
      ∈ report_lines results ∧
    errors_line (results.countP (fun r => r.status == "error"))
      ∈ report_lines results ∧
    (∃ pre post, report_lines results =
      pre ++ ((takeLast 5 ((takeLast 20 results).filter has_changes)).map
        recent_entry).flatten ++ post) ∧
    generate_report (some results)
      = String.intercalate "\n" (report_lines results) ∧
    scenarioLog.length = 3 ∧
    total_line 3 ∈ report_lines scenarioLog ∧
    products_line 2 ∈ report_lines scenarioLog ∧
    successes_line 2 ∈ report_lines scenarioLog ∧
    changed_line 0 ∈ report_lines scenarioLog ∧
    errors_line 1 ∈ report_lines scenarioLog := by
  refine ⟨by simp [report_lines], by simp [report_lines], by simp [report_lines],
    by simp [report_lines], by simp [report_lines], ?_, rfl,
    by with_unfolding_all decide, by with_unfolding_all decide,
    by with_unfolding_all decide, by with_unfolding_all decide,
    by with_unfolding_all decide, by with_unfolding_all decide⟩
  by_cases hrc : (takeLast 20 results).filter has_changes = []
  · refine ⟨[String.mk (List.replicate 60 '='), "MONITORING REPORT",
      String.mk (List.replicate 60 '='),
      total_line results.length,
      products_line ((results.map (fun r => r.url)).dedup).length,
      "\nStatus breakdown:",
      successes_line (results.countP (fun r => r.status == "success")),
      changed_line (results.countP (fun r => r.status == "changed")),
      errors_line (results.countP (fun r => r.status == "error"))],
      ["\n" ++ String.mk (List.replicate 60 '=')], ?_⟩
    simp [report_lines, hrc]
    intro a ha
    simp [takeLast] at ha
  · refine ⟨[String.mk (List.replicate 60 '='), "MONITORING REPORT",
      String.mk (List.replicate 60 '='),
      total_line results.length,
      products_line ((results.map (fun r => r.url)).dedup).length,
      "\nStatus breakdown:",
      successes_line (results.countP (fun r => r.status == "success")),
      changed_line (results.countP (fun r => r.status == "changed")),
      errors_line (results.countP (fun r => r.status == "error")),
      recent_header ((takeLast 20 results).filter has_changes).length],
      ["\n" ++ String.mk (List.replicate 60 '=')], ?_⟩
    simp [report_lines, hrc]
